import Mathlib

/-!
# Trade bot: the `/trade` command handler of `src/index.js`

A shallow embedding of the slash-command handler and of the regular expression
it validates the private server link with.

* JavaScript strings are modelled by Lean strings, read as their list of
  characters.  The pattern has no `u` flag and consists of ASCII literals and
  one negated class, so matching over code points accepts exactly the strings
  that matching over UTF-16 code units accepts.
* The calls into discord.js (`deferReply`, `channels.cache.get`, the
  `EmbedBuilder` chain, `send`, `editReply`) are calls into the environment.
  Their outcomes are fields of `World`; the handler records every call it makes,
  with its outcome, in a trace.
-/

namespace TradeBot

/-! ## Regular expressions -/

/-- One term of a pattern: a literal character, or a negated character class
under the greedy quantifier `+` (such as `[^&]+`). -/
inductive Atom where
  | lit (c : Char)
  | plusNot (excluded : List Char)
  deriving Repr, DecidableEq

/-- Greedy `[^...]+` followed by the continuation `k`: consume one character
outside the class, then first try to consume more, and fall back to the
continuation on what is left. Returns the input that remains after the whole
match. -/
def plusLoop (k : List Char → Option (List Char)) (excluded : List Char) :
    List Char → Option (List Char)
  | [] => none
  | x :: xs =>
    if excluded.contains x then none
    else (plusLoop k excluded xs).orElse (fun _ => k xs)

/-- Backtracking match of a pattern at the start of the input; the result is
the input left after the match. -/
def matchHere : List Atom → List Char → Option (List Char)
  | [], s => some s
  | Atom.lit _ :: _, [] => none
  | Atom.lit c :: rest, x :: xs => if x = c then matchHere rest xs else none
  | Atom.plusNot excluded :: rest, s => plusLoop (matchHere rest) excluded s

/-- Leftmost match at or after the current position: `(skipped, remaining)`
where `skipped` counts the characters before the match. -/
def search (p : List Atom) : List Char → Option (Nat × List Char)
  | [] => (matchHere p []).map (fun r => (0, r))
  | x :: xs =>
    match matchHere p (x :: xs) with
    | some r => some (0, r)
    | none => (search p xs).map (fun m => (m.1 + 1, m.2))

/-- A JavaScript `RegExp` object: the compiled pattern, the `g` and `y` flags,
and the mutable `lastIndex` property. -/
structure RegExp where
  source : List Atom
  global : Bool
  sticky : Bool
  lastIndex : Nat
  deriving Repr, DecidableEq

/-- The method `RegExp.prototype.test` (RegExpBuiltinExec): the result and the
object after the call. Without `g` and `y` the search starts at index 0 and
`lastIndex` is not written; with one of them it starts at `lastIndex`, which is
set to the end of the match, or to 0 on failure. -/
def RegExp.test (r : RegExp) (s : String) : Bool × RegExp :=
  let input := s.data
  if r.global || r.sticky then
    if input.length < r.lastIndex then (false, { r with lastIndex := 0 })
    else
      let tail := input.drop r.lastIndex
      if r.sticky then
        match matchHere r.source tail with
        | some rest => (true, { r with lastIndex := input.length - rest.length })
        | none => (false, { r with lastIndex := 0 })
      else
        match search r.source tail with
        | some m => (true, { r with lastIndex := input.length - m.2.length })
        | none => (false, { r with lastIndex := 0 })
  else
    ((search r.source input).isSome, r)

/-- A run of literal characters. -/
def lits (s : String) : List Atom := s.data.map Atom.lit

/-- The pattern `https:\/\/www\.roblox\.com\/share\?code=[^&]+&type=Server`:
the escapes `\/`, `\.` and `\?` are the literal characters. -/
def SERVER_LINK_SOURCE : List Atom :=
  lits "https://www.roblox.com/share?code=" ++ [Atom.plusNot ['&']] ++ lits "&type=Server"

/-- The module-level constant `SERVER_LINK_PATTERN`, a regular expression
literal without flags. -/
def SERVER_LINK_PATTERN : RegExp :=
  { source := SERVER_LINK_SOURCE, global := false, sticky := false, lastIndex := 0 }

/-- Validation of several strings in a row with the same object. -/
def testAll (r : RegExp) : List String → List Bool × RegExp
  | [] => ([], r)
  | s :: rest =>
    let a := r.test s
    let b := testAll a.2 rest
    (a.1 :: b.1, b.2)

/-! ## Notifications -/

/-- One field of an embed, as passed to `addFields`. -/
structure EmbedField where
  name : String
  value : String
  inline : Bool
  deriving Repr, DecidableEq

/-- The data an `EmbedBuilder` accumulates. -/
structure Embed where
  color : Option String
  title : Option String
  description : Option String
  fields : List EmbedField
  thumbnail : Option String
  footer : Option String
  deriving Repr, DecidableEq

/-- The call `new EmbedBuilder()`: nothing is set yet. -/
def EmbedBuilder : Embed :=
  { color := none, title := none, description := none, fields := [],
    thumbnail := none, footer := none }

/-- The method `setColor`. -/
def Embed.setColor (e : Embed) (c : String) : Embed := { e with color := some c }

/-- The method `setTitle`. -/
def Embed.setTitle (e : Embed) (t : String) : Embed := { e with title := some t }

/-- The method `setDescription`. -/
def Embed.setDescription (e : Embed) (d : String) : Embed := { e with description := some d }

/-- The method `addFields`: the new fields go after the ones already there. -/
def Embed.addFields (e : Embed) (fs : List EmbedField) : Embed :=
  { e with fields := e.fields ++ fs }

/-- The method `setThumbnail`. -/
def Embed.setThumbnail (e : Embed) (url : String) : Embed := { e with thumbnail := some url }

/-- The method `setFooter`, called with the `text` of the footer. -/
def Embed.setFooter (e : Embed) (text : String) : Embed := { e with footer := some text }

/-! ## The environment -/

/-- A channel object of the client cache. -/
structure Channel where
  id : String
  deriving Repr, DecidableEq

/-- The incoming interaction, as far as the handler reads it: the result of
`isCommand()`, `commandName`, `user.toString()`,
`user.displayAvatarURL(...)`, and the three string options. -/
structure Interaction where
  isCommand : Bool
  commandName : String
  user : String
  avatarURL : String
  item_to_trade : String
  item_looking_for : String
  private_server_link : String
  deriving Repr, DecidableEq

/-- What the platform does during one invocation. `deferReplyOk` and `sendOk`
say whether the promise of that call resolves, `editReplyOk n` whether the
promise of the `n`-th call of `editReply` (counted from 0) resolves, `channels`
is the channel cache, and `embedValid` is the validation the builders of
discord.js run on the data they are given (they throw when it fails; the
library is not part of the repository, so its check is a parameter). -/
structure World where
  deferReplyOk : Bool
  channels : String → Option Channel
  embedValid : Embed → Bool
  sendOk : Bool
  editReplyOk : Nat → Bool

/-- One call into the environment, with its result. -/
inductive Step where
  | deferReply (ephemeral : Bool) (ok : Bool)
  | cacheGet (id : String) (result : Option Channel)
  | send (channel : Channel) (embed : Embed) (ok : Bool)
  | editReply (content : String) (ok : Bool)
  | consoleError (message : String) (error : String)
  deriving Repr, DecidableEq

/-- How an asynchronous function ends: its promise resolves with a value, or it
rejects with an error (here: the name of the call that failed). -/
inductive Outcome (α : Type) where
  | returned (a : α)
  | threw (error : String)
  deriving Repr, DecidableEq

/-- An effectful computation: it reads the world, appends to the trace of the
calls made so far, and returns or throws. -/
def Task (α : Type) : Type := World → List Step → Outcome α × List Step

/-- Sequencing: a thrown error skips the rest. -/
def Task.bind {α β : Type} (t : Task α) (f : α → Task β) : Task β := fun w tr =>
  match t w tr with
  | (Outcome.returned a, tr1) => f a w tr1
  | (Outcome.threw e, tr1) => (Outcome.threw e, tr1)

/-- The statement `try ... catch (error) ...`. -/
def Task.tryCatch {α : Type} (t : Task α) (h : String → Task α) : Task α := fun w tr =>
  match t w tr with
  | (Outcome.returned a, tr1) => (Outcome.returned a, tr1)
  | (Outcome.threw e, tr1) => h e w tr1

instance : Monad Task where
  pure a := fun _ tr => (Outcome.returned a, tr)
  bind := Task.bind

instance : MonadExcept String Task where
  throw e := fun _ tr => (Outcome.threw e, tr)
  tryCatch := Task.tryCatch

/-- The number of `editReply` calls in a trace. -/
def editReplyCount : List Step → Nat
  | [] => 0
  | Step.editReply _ _ :: rest => editReplyCount rest + 1
  | _ :: rest => editReplyCount rest

/-- The call `await interaction.deferReply(...)`. -/
def deferReply (ephemeral : Bool) : Task Unit := fun w tr =>
  (if w.deferReplyOk then Outcome.returned () else Outcome.threw "deferReply",
   tr ++ [Step.deferReply ephemeral w.deferReplyOk])

/-- The call `client.channels.cache.get(id)`. -/
def channelsCacheGet (id : String) : Task (Option Channel) := fun w tr =>
  (Outcome.returned (w.channels id), tr ++ [Step.cacheGet id (w.channels id)])

/-- The end of a builder chain: the library accepts the data or throws. -/
def built (e : Embed) : Task Embed := fun w tr =>
  (if w.embedValid e then Outcome.returned e else Outcome.threw "EmbedBuilder", tr)

/-- The call `await tradeChannel.send(...)` with a single embed. -/
def Channel.send (ch : Channel) (e : Embed) : Task Unit := fun w tr =>
  (if w.sendOk then Outcome.returned () else Outcome.threw "send",
   tr ++ [Step.send ch e w.sendOk])

/-- The call `await interaction.editReply(...)` with the given content. -/
def editReply (content : String) : Task Unit := fun w tr =>
  (if w.editReplyOk (editReplyCount tr) then Outcome.returned () else Outcome.threw "editReply",
   tr ++ [Step.editReply content (w.editReplyOk (editReplyCount tr))])

/-- The call `console.error(message, error)`. -/
def consoleError (message : String) (error : String) : Task Unit := fun _ tr =>
  (Outcome.returned (), tr ++ [Step.consoleError message error])

/-! ## The handler -/

/-- The identifier of the channel trade requests are sent to. -/
def TRADE_CHANNEL_ID : String := "1419373453626183760"

/-- The reply when the trade channel is not in the cache. -/
def CHANNEL_NOT_FOUND_REPLY : String :=
  "Error: The trade channel could not be found. Please check the channel ID."

/-- The reply when the link does not pass validation. -/
def INVALID_LINK_REPLY : String :=
  "Error: Invalid private server link format. It must be in the format `https://www.roblox.com/share?code=________________________&type=Server`."

/-- The reply after the embed was sent. -/
def SUCCESS_REPLY : String :=
  "✅ Your trade request has been successfully sent to the trade channel!"

/-- The reply from the `catch` block. -/
def FAILURE_REPLY : String := "An error occurred while sending your trade request."

/-- The embed of a trade request (the chain on `new EmbedBuilder()`). -/
def tradeEmbed (i : Interaction) : Embed :=
  EmbedBuilder
    |>.setColor "#FFD700"
    |>.setTitle "✨ New Trade Request ✨"
    |>.setDescription "A user has submitted a trade request."
    |>.addFields [
        { name := "Trader", value := i.user, inline := false },
        { name := "Item to Trade", value := i.item_to_trade, inline := true },
        { name := "Item Looking For", value := i.item_looking_for, inline := true },
        { name := "Private Server Link",
          value := "[Click to Join](" ++ i.private_server_link ++ ")", inline := false }]
    |>.setThumbnail i.avatarURL
    |>.setFooter "Trade Bot | Use the /trade command to create your own request!"

/-- The listener of `interactionCreate`. -/
def handler (i : Interaction) : Task Unit := do
  if !i.isCommand || i.commandName != "trade" then
    pure ()
  else
    deferReply true
    match (← channelsCacheGet TRADE_CHANNEL_ID) with
    | none => editReply CHANNEL_NOT_FOUND_REPLY
    | some tradeChannel =>
      if !(SERVER_LINK_PATTERN.test i.private_server_link).1 then
        editReply INVALID_LINK_REPLY
      else
        let embed ← built (tradeEmbed i)
        try
          tradeChannel.send embed
          editReply SUCCESS_REPLY
        catch error =>
          consoleError "Failed to send message to trade channel:" error
          editReply FAILURE_REPLY

/-- The calls one invocation makes, in order, starting from an empty trace. -/
def trace (w : World) (i : Interaction) : List Step := (handler i w []).2

/-- How the invocation ends: the handler returns, or an error leaves it. -/
def outcome (w : World) (i : Interaction) : Outcome Unit := (handler i w []).1

/-- The embeds passed to `send`, in order. -/
def sends : List Step → List Embed
  | [] => []
  | Step.send _ e _ :: rest => e :: sends rest
  | _ :: rest => sends rest

/-- The contents passed to `editReply`, in order. -/
def editReplies : List Step → List String
  | [] => []
  | Step.editReply c _ :: rest => c :: editReplies rest
  | _ :: rest => editReplies rest

/-- The contents of the `editReply` calls that resolved: the replies the
invoker gets. -/
def delivered : List Step → List String
  | [] => []
  | Step.editReply c true :: rest => c :: delivered rest
  | _ :: rest => delivered rest

/-- A world in which every call succeeds and the trade channel exists. -/
def fineWorld : World :=
  { deferReplyOk := true,
    channels := fun id => if id = TRADE_CHANNEL_ID then some { id := id } else none,
    embedValid := fun _ => true,
    sendOk := true,
    editReplyOk := fun _ => true }

/-- Scenario A of the specification. -/
def scenarioA : Interaction :=
  { isCommand := true, commandName := "trade", user := "<@42>",
    avatarURL := "https://cdn.discordapp.com/avatars/42/a.png",
    item_to_trade := "Sword", item_looking_for := "Shield",
    private_server_link := "https://www.roblox.com/share?code=ABC123XYZ&type=Server" }

/-- The run of the handler written out path by path: the outcome and the trace
for each combination of results the environment can give. -/
def runTable (w : World) (i : Interaction) : Outcome Unit × List Step :=
  if i.isCommand = false ∨ i.commandName ≠ "trade" then (Outcome.returned (), [])
  else if w.deferReplyOk = false then
    (Outcome.threw "deferReply", [Step.deferReply true false])
  else
    match w.channels TRADE_CHANNEL_ID with
    | none =>
      (if w.editReplyOk 0 then Outcome.returned () else Outcome.threw "editReply",
       [Step.deferReply true true, Step.cacheGet TRADE_CHANNEL_ID none,
        Step.editReply CHANNEL_NOT_FOUND_REPLY (w.editReplyOk 0)])
    | some ch =>
      if (SERVER_LINK_PATTERN.test i.private_server_link).1 = false then
        (if w.editReplyOk 0 then Outcome.returned () else Outcome.threw "editReply",
         [Step.deferReply true true, Step.cacheGet TRADE_CHANNEL_ID (some ch),
          Step.editReply INVALID_LINK_REPLY (w.editReplyOk 0)])
      else if w.embedValid (tradeEmbed i) = false then
        (Outcome.threw "EmbedBuilder",
         [Step.deferReply true true, Step.cacheGet TRADE_CHANNEL_ID (some ch)])
      else if w.sendOk = false then
        (if w.editReplyOk 0 then Outcome.returned () else Outcome.threw "editReply",
         [Step.deferReply true true, Step.cacheGet TRADE_CHANNEL_ID (some ch),
          Step.send ch (tradeEmbed i) false,
          Step.consoleError "Failed to send message to trade channel:" "send",
          Step.editReply FAILURE_REPLY (w.editReplyOk 0)])
      else if w.editReplyOk 0 = true then
        (Outcome.returned (),
         [Step.deferReply true true, Step.cacheGet TRADE_CHANNEL_ID (some ch),
          Step.send ch (tradeEmbed i) true, Step.editReply SUCCESS_REPLY true])
      else
        (if w.editReplyOk 1 then Outcome.returned () else Outcome.threw "editReply",
         [Step.deferReply true true, Step.cacheGet TRADE_CHANNEL_ID (some ch),
          Step.send ch (tradeEmbed i) true, Step.editReply SUCCESS_REPLY false,
          Step.consoleError "Failed to send message to trade channel:" "editReply",
          Step.editReply FAILURE_REPLY (w.editReplyOk 1)])

/-- The terminal reply of an invocation: the content of the last `editReply`
call the handler makes. -/
def terminalReply (tr : List Step) : Option String := (editReplies tr).getLast?

/-! ## Concrete worlds and invocations -/

/-- The length check discord.js 14 runs in `addFields`: a field name has 1 to
256 characters and a field value 1 to 1024. -/
def fieldLengthCheck (e : Embed) : Bool :=
  e.fields.all fun f =>
    decide (1 ≤ f.name.length) && decide (f.name.length ≤ 256) &&
    decide (1 ≤ f.value.length) && decide (f.value.length ≤ 1024)

/-- A world in which every call succeeds and the builder checks field lengths. -/
def checkingWorld : World := { fineWorld with embedValid := fieldLengthCheck }

/-- Scenario A with an item description of 1025 characters (the platform
allows up to 6000 in a string option). -/
def longItemTrade : Interaction :=
  { scenarioA with item_to_trade := String.mk (List.replicate 1025 'x') }

/-- A world in which `deferReply` is rejected (for instance because the
interaction is no longer known to the platform). -/
def expiredWorld : World := { fineWorld with deferReplyOk := false }

/-- A world in which the builder throws. -/
def throwingBuilderWorld : World := { fineWorld with embedValid := fun _ => false }

/-- A world in which the first `editReply` is rejected and later ones are not. -/
def flakyReplyWorld : World := { fineWorld with editReplyOk := fun n => decide (n ≠ 0) }

/-- A world in which `send` and every `editReply` are rejected. -/
def offlineWorld : World :=
  { fineWorld with sendOk := false, editReplyOk := fun _ => false }

/-- A world in which `send` is rejected and everything else succeeds. -/
def sendFailsWorld : World := { fineWorld with sendOk := false }

/-- A world whose channel cache is empty (scenario D). -/
def noChannelWorld : World := { fineWorld with channels := fun _ => none }

/-- Scenario B of the specification. -/
def scenarioB : Interaction :=
  { scenarioA with
    private_server_link := "https://www.roblox.com/share?code=ABC123XYZ&type=Private" }

/-- Scenario C of the specification. -/
def scenarioC : Interaction := { scenarioA with private_server_link := "not-a-link" }

/-- Scenario A with 1000 characters of text after the valid link. -/
def paddedLinkTrade : Interaction :=
  { scenarioA with
    private_server_link :=
      "https://www.roblox.com/share?code=ABC123XYZ&type=Server" ++
        String.mk (List.replicate 1000 'x') }

/-- Scenario A with a valid link inside a longer text. -/
def embeddedLinkTrade : Interaction :=
  { scenarioA with
    private_server_link :=
      "join " ++ "https://www.roblox.com/share?code=A&type=Server" ++ "&x=1 now" }

/-! ## Theorems -/

/-- Scenario A, run in a world where every call succeeds: the request is sent
and the invoker gets the success reply. -/
theorem scenarioA_trace : trace fineWorld scenarioA =
    [Step.deferReply true true,
     Step.cacheGet TRADE_CHANNEL_ID (some { id := TRADE_CHANNEL_ID }),
     Step.send { id := TRADE_CHANNEL_ID } (tradeEmbed scenarioA) true,
     Step.editReply SUCCESS_REPLY true] := by decide

/-- The handler, run from the empty trace, follows the table. -/
theorem handler_eq_runTable (w : World) (i : Interaction) :
    handler i w [] = runTable w i := by
  unfold handler runTable
  cases hc : i.isCommand
  · simp [pure]
  · by_cases hn : i.commandName = "trade"
    · cases hd : w.deferReplyOk
      · simp [hn, bind, Task.bind, deferReply, hd]
      · cases hch : w.channels TRADE_CHANNEL_ID with
        | none =>
          simp [hn, bind, Task.bind, deferReply, hd, channelsCacheGet, hch, editReply,
            editReplyCount]
        | some ch =>
          cases ht : (SERVER_LINK_PATTERN.test i.private_server_link).1
          · simp [hn, bind, Task.bind, deferReply, hd, channelsCacheGet, hch, editReply,
              editReplyCount, ht]
          · cases hv : w.embedValid (tradeEmbed i)
            · simp [hn, bind, Task.bind, deferReply, hd, channelsCacheGet, hch, ht, built, hv]
            · cases hs : w.sendOk
              · simp [hn, bind, Task.bind, deferReply, hd, channelsCacheGet, hch, ht, built, hv,
                  tryCatch, tryCatchThe, MonadExcept.tryCatch, Task.tryCatch, Channel.send, hs,
                  consoleError, editReply, editReplyCount]
              · cases h0 : w.editReplyOk 0
                · simp [hn, bind, Task.bind, deferReply, hd, channelsCacheGet, hch, ht, built, hv,
                    tryCatch, tryCatchThe, MonadExcept.tryCatch, Task.tryCatch, Channel.send, hs,
                    consoleError, editReply, editReplyCount, h0]
                · simp [hn, bind, Task.bind, deferReply, hd, channelsCacheGet, hch, ht, built, hv,
                    tryCatch, tryCatchThe, MonadExcept.tryCatch, Task.tryCatch, Channel.send, hs,
                    consoleError, editReply, editReplyCount, h0]
    · simp [hn, pure]

/-! ### The matcher -/

/-- The greedy loop succeeds exactly on a non-empty run of characters outside
the class followed by an input the continuation accepts. -/
theorem plusLoop_isSome (k : List Char → Option (List Char)) (ex : List Char) (s : List Char) :
    (plusLoop k ex s).isSome = true ↔
      ∃ c t, c ≠ [] ∧ (∀ x ∈ c, x ∉ ex) ∧ s = c ++ t ∧ (k t).isSome = true := by
  induction s with
  | nil =>
    constructor
    · intro h
      simp [plusLoop] at h
    · rintro ⟨c, t, hc, -, hs, -⟩
      cases c with
      | nil => exact absurd rfl hc
      | cons y c => simp at hs
  | cons x xs ih =>
    by_cases hx : x ∈ ex
    · constructor
      · intro h
        simp [plusLoop, hx] at h
      · rintro ⟨c, t, hc, hall, hs, -⟩
        cases c with
        | nil => exact absurd rfl hc
        | cons y c =>
          simp only [List.cons_append, List.cons.injEq] at hs
          exact absurd (hs.1 ▸ hx) (hall y (List.mem_cons_self y c))
    · have hstep : plusLoop k ex (x :: xs) = (plusLoop k ex xs).orElse (fun _ => k xs) := by
        simp [plusLoop, hx]
      rw [hstep]
      constructor
      · intro h
        cases hp : plusLoop k ex xs with
        | some r =>
          obtain ⟨c, t, -, hall, hs, hk⟩ := ih.mp (by simp [hp])
          refine ⟨x :: c, t, by simp, ?_, by simp [hs], hk⟩
          intro y hy
          rcases List.mem_cons.mp hy with rfl | hy
          · exact hx
          · exact hall y hy
        | none =>
          rw [hp] at h
          refine ⟨[x], xs, by simp, ?_, by simp, by simpa [Option.orElse] using h⟩
          intro y hy
          rw [List.mem_singleton.mp hy]
          exact hx
      · rintro ⟨c, t, hc, hall, hs, hk⟩
        cases c with
        | nil => exact absurd rfl hc
        | cons y c =>
          simp only [List.cons_append, List.cons.injEq] at hs
          obtain ⟨-, hxs⟩ := hs
          by_cases hcn : c = []
          · subst hcn
            simp only [List.nil_append] at hxs
            subst hxs
            cases hp : plusLoop k ex xs with
            | some r => simp [Option.orElse]
            | none => simpa [Option.orElse] using hk
          · have hrec : (plusLoop k ex xs).isSome = true :=
              ih.mpr ⟨c, t, hcn, fun z hz => hall z (List.mem_cons_of_mem y hz), hxs, hk⟩
            cases hp : plusLoop k ex xs with
            | some r => simp [Option.orElse]
            | none => simp [hp] at hrec

/-- A run of literals matches exactly the inputs that start with it. -/
theorem matchHere_lits (l : List Char) (rest : List Atom) (s : List Char) :
    (matchHere (l.map Atom.lit ++ rest) s).isSome = true ↔
      ∃ t, s = l ++ t ∧ (matchHere rest t).isSome = true := by
  induction l generalizing s with
  | nil => simp
  | cons c l ih =>
    cases s with
    | nil => simp [matchHere]
    | cons x xs =>
      by_cases hxc : x = c
      · subst hxc
        simp [matchHere, ih]
      · have hne : ¬ (x = c) := hxc
        simp [matchHere, hxc]

/-- The search finds a match exactly when some tail of the input matches. -/
theorem search_isSome (p : List Atom) (s : List Char) :
    (search p s).isSome = true ↔ ∃ a t, s = a ++ t ∧ (matchHere p t).isSome = true := by
  induction s with
  | nil =>
    constructor
    · intro h
      exact ⟨[], [], rfl, by simpa [search] using h⟩
    · rintro ⟨a, t, hs, hm⟩
      have ht : t = [] := (List.append_eq_nil.mp hs.symm).2
      subst ht
      simpa [search] using hm
  | cons x xs ih =>
    constructor
    · intro h
      cases hm : matchHere p (x :: xs) with
      | some r => exact ⟨[], x :: xs, rfl, by simp [hm]⟩
      | none =>
        have h2 : (search p xs).isSome = true := by
          simpa [search, hm] using h
        obtain ⟨a, t, hs, ht⟩ := ih.mp h2
        exact ⟨x :: a, t, by simp [hs], ht⟩
    · rintro ⟨a, t, hs, hm⟩
      cases hm2 : matchHere p (x :: xs) with
      | some r => simp [search, hm2]
      | none =>
        cases a with
        | nil =>
          simp only [List.nil_append] at hs
          rw [← hs, hm2] at hm
          simp at hm
        | cons y a =>
          simp only [List.cons_append, List.cons.injEq] at hs
          have h2 : (search p xs).isSome = true := ih.mpr ⟨a, t, hs.2, hm⟩
          simpa [search, hm2] using h2

/-- The pattern, matched at the start of the input. -/
theorem matchHere_source (t : List Char) :
    (matchHere SERVER_LINK_SOURCE t).isSome = true ↔
      ∃ c q, c ≠ [] ∧ '&' ∉ c ∧
        t = "https://www.roblox.com/share?code=".data ++ (c ++ ("&type=Server".data ++ q)) := by
  have hsrc : SERVER_LINK_SOURCE =
      "https://www.roblox.com/share?code=".data.map Atom.lit ++
        (Atom.plusNot ['&'] :: ("&type=Server".data.map Atom.lit ++ [])) := by
    simp [SERVER_LINK_SOURCE, lits]
  rw [hsrc, matchHere_lits]
  constructor
  · rintro ⟨u, hu, hm⟩
    rw [matchHere, plusLoop_isSome] at hm
    obtain ⟨c, v, hc, hall, hv, hk⟩ := hm
    obtain ⟨q, hq, -⟩ := (matchHere_lits _ _ _).mp hk
    refine ⟨c, q, hc, ?_, ?_⟩
    · intro hmem
      exact hall _ hmem (List.mem_singleton.mpr rfl)
    · rw [hu, hv, hq]
  · rintro ⟨c, q, hc, hamp, ht⟩
    refine ⟨c ++ ("&type=Server".data ++ q), ht, ?_⟩
    rw [matchHere, plusLoop_isSome]
    refine ⟨c, "&type=Server".data ++ q, hc, ?_, rfl, ?_⟩
    · intro x hx hxe
      rw [List.mem_singleton.mp hxe] at hx
      exact hamp hx
    · exact (matchHere_lits _ _ _).mpr ⟨q, rfl, by simp [matchHere]⟩

/-- The object `SERVER_LINK_PATTERN` has no flag: `test` is the search from
index 0 and gives the object back as it was. -/
theorem test_SERVER_LINK_PATTERN (s : String) :
    SERVER_LINK_PATTERN.test s =
      ((search SERVER_LINK_SOURCE s.data).isSome, SERVER_LINK_PATTERN) := by
  simp [RegExp.test, SERVER_LINK_PATTERN]

/-- The strings `test` accepts, as lists of characters. -/
theorem test_iff_data (s : String) :
    (SERVER_LINK_PATTERN.test s).1 = true ↔
      ∃ p c q : List Char, c ≠ [] ∧ '&' ∉ c ∧
        s.data = p ++ ("https://www.roblox.com/share?code=".data ++
          (c ++ ("&type=Server".data ++ q))) := by
  rw [test_SERVER_LINK_PATTERN]
  simp only [search_isSome, matchHere_source]
  constructor
  · rintro ⟨a, t, hs, c, q, hc, hamp, ht⟩
    exact ⟨a, c, q, hc, hamp, by rw [hs, ht]⟩
  · rintro ⟨p, c, q, hc, hamp, hs⟩
    exact ⟨p, _, hs, c, q, hc, hamp, rfl⟩

/-- The strings `test` accepts. -/
theorem test_iff (s : String) :
    (SERVER_LINK_PATTERN.test s).1 = true ↔
      ∃ p c q : String, c ≠ "" ∧ '&' ∉ c.data ∧
        s = p ++ "https://www.roblox.com/share?code=" ++ c ++ "&type=Server" ++ q := by
  rw [test_iff_data]
  constructor
  · rintro ⟨p, c, q, hc, hamp, hs⟩
    refine ⟨String.mk p, String.mk c, String.mk q, ?_, hamp, ?_⟩
    · intro h
      apply hc
      have := congrArg String.data h
      simpa using this
    · apply String.ext
      simp only [String.data_append]
      rw [hs]
      simp
  · rintro ⟨p, c, q, hc, hamp, hs⟩
    refine ⟨p.data, c.data, q.data, ?_, hamp, ?_⟩
    · intro h
      apply hc
      apply String.ext
      simpa using h
    · rw [hs]
      simp only [String.data_append]
      simp

/-- Claim C4: `SERVER_LINK_PATTERN.test(s)` is true exactly when `s` is
`p ++ "https://www.roblox.com/share?code=" ++ c ++ "&type=Server" ++ q` for some
strings `p`, `q` and a non-empty `c` without the character `&`; it accepts the
link of scenario A and rejects the link with `type=Private`, the string
`not-a-link` and the link with an empty code. -/
theorem C4_pattern_characterisation :
    (∀ s : String, (SERVER_LINK_PATTERN.test s).1 = true ↔
      ∃ p c q : String, c ≠ "" ∧ '&' ∉ c.data ∧
        s = p ++ "https://www.roblox.com/share?code=" ++ c ++ "&type=Server" ++ q) ∧
    (SERVER_LINK_PATTERN.test "https://www.roblox.com/share?code=ABC123XYZ&type=Server").1 = true ∧
    (SERVER_LINK_PATTERN.test "https://www.roblox.com/share?code=ABC123XYZ&type=Private").1 = false ∧
    (SERVER_LINK_PATTERN.test "not-a-link").1 = false ∧
    (SERVER_LINK_PATTERN.test "https://www.roblox.com/share?code=&type=Server").1 = false :=
  ⟨test_iff, by decide, by decide, by decide, by decide⟩

/-- Text put before and after a string that passes validation does not change
the verdict. -/
theorem test_append (p s q : String) (h : (SERVER_LINK_PATTERN.test s).1 = true) :
    (SERVER_LINK_PATTERN.test (p ++ s ++ q)).1 = true := by
  obtain ⟨a, c, b, hc, hamp, hs⟩ := (test_iff s).mp h
  refine (test_iff _).mpr ⟨p ++ a, c, b ++ q, hc, hamp, ?_⟩
  rw [hs]
  simp only [String.append_assoc]

/-- Validation with `SERVER_LINK_PATTERN` leaves the object as it was, however
many strings are validated. -/
theorem testAll_SERVER_LINK_PATTERN (ss : List String) :
    (testAll SERVER_LINK_PATTERN ss).2 = SERVER_LINK_PATTERN := by
  induction ss with
  | nil => rfl
  | cons s rest ih => simpa [testAll, test_SERVER_LINK_PATTERN] using ih

/-- Claim C10: validation is a pure function of the string. The pattern
carries neither `g` nor `y`; a call of `test` returns the object unchanged, and
after validating any strings `before`, validating `s` gives the same result as
validating it first, twice in a row included. -/
theorem C10_validation_pure :
    SERVER_LINK_PATTERN.global = false ∧ SERVER_LINK_PATTERN.sticky = false ∧
    (∀ s : String, (SERVER_LINK_PATTERN.test s).2 = SERVER_LINK_PATTERN) ∧
    (∀ (before : List String) (s : String),
      ((testAll SERVER_LINK_PATTERN before).2.test s).1 = (SERVER_LINK_PATTERN.test s).1) ∧
    (∀ s : String, ((SERVER_LINK_PATTERN.test s).2.test s).1 = (SERVER_LINK_PATTERN.test s).1) := by
  refine ⟨rfl, rfl, ?_, ?_, ?_⟩
  · intro s
    rw [test_SERVER_LINK_PATTERN]
  · intro before s
    rw [testAll_SERVER_LINK_PATTERN]
  · intro s
    simp [test_SERVER_LINK_PATTERN]

/-- The flags matter: the same pattern with the `g` flag accepts the link of
scenario A on the first call and rejects it on the second, since the first
call leaves `lastIndex` at the end of the match. -/
theorem global_flag_is_stateful :
    ({ SERVER_LINK_PATTERN with global := true }.test
      "https://www.roblox.com/share?code=ABC123XYZ&type=Server").1 = true ∧
    (({ SERVER_LINK_PATTERN with global := true }.test
      "https://www.roblox.com/share?code=ABC123XYZ&type=Server").2.test
      "https://www.roblox.com/share?code=ABC123XYZ&type=Server").1 = false := by
  decide

/-! ### The handler -/

/-- The trace of an invocation, read off the table. -/
theorem trace_eq (w : World) (i : Interaction) : trace w i = (runTable w i).2 := by
  rw [trace, handler_eq_runTable]

/-- The outcome of an invocation, read off the table. -/
theorem outcome_eq (w : World) (i : Interaction) : outcome w i = (runTable w i).1 := by
  rw [outcome, handler_eq_runTable]

/-- The cache lookup returned a channel exactly when the command is `trade`,
`deferReply` resolved and the cache holds the channel. -/
theorem resolved_iff (w : World) (i : Interaction) (ch : Channel) :
    Step.cacheGet TRADE_CHANNEL_ID (some ch) ∈ trace w i ↔
      i.isCommand = true ∧ i.commandName = "trade" ∧ w.deferReplyOk = true ∧
        w.channels TRADE_CHANNEL_ID = some ch := by
  rw [trace_eq]
  cases hc : i.isCommand
  · simp [runTable, hc]
  · by_cases hn : i.commandName = "trade"
    · cases hd : w.deferReplyOk
      · simp [runTable, hc, hn, hd]
      · cases hch : w.channels TRADE_CHANNEL_ID with
        | none => simp [runTable, hc, hn, hd, hch]
        | some c =>
          simp only [runTable, hc, hn, hd, hch, Bool.true_eq_false, ne_eq, not_true_eq_false,
            or_self, if_false]
          split_ifs <;> simp [eq_comm]
    · simp [runTable, hc, hn]

/-- The cache lookup returned nothing exactly when the command is `trade`,
`deferReply` resolved and the cache does not hold the channel. -/
theorem unresolved_iff (w : World) (i : Interaction) :
    Step.cacheGet TRADE_CHANNEL_ID none ∈ trace w i ↔
      i.isCommand = true ∧ i.commandName = "trade" ∧ w.deferReplyOk = true ∧
        w.channels TRADE_CHANNEL_ID = none := by
  rw [trace_eq]
  cases hc : i.isCommand
  · simp [runTable, hc]
  · by_cases hn : i.commandName = "trade"
    · cases hd : w.deferReplyOk
      · simp [runTable, hc, hn, hd]
      · cases hch : w.channels TRADE_CHANNEL_ID with
        | none => simp [runTable, hc, hn, hd, hch]
        | some c =>
          simp only [runTable, hc, hn, hd, hch, Bool.true_eq_false, ne_eq, not_true_eq_false,
            or_self, if_false]
          split_ifs <;> simp
    · simp [runTable, hc, hn]

/-- The run of a `trade` invocation that got its channel from the cache. -/
theorem runTable_resolved (w : World) (i : Interaction) (ch : Channel)
    (h : Step.cacheGet TRADE_CHANNEL_ID (some ch) ∈ trace w i) :
    runTable w i =
      if (SERVER_LINK_PATTERN.test i.private_server_link).1 = false then
        (if w.editReplyOk 0 then Outcome.returned () else Outcome.threw "editReply",
         [Step.deferReply true true, Step.cacheGet TRADE_CHANNEL_ID (some ch),
          Step.editReply INVALID_LINK_REPLY (w.editReplyOk 0)])
      else if w.embedValid (tradeEmbed i) = false then
        (Outcome.threw "EmbedBuilder",
         [Step.deferReply true true, Step.cacheGet TRADE_CHANNEL_ID (some ch)])
      else if w.sendOk = false then
        (if w.editReplyOk 0 then Outcome.returned () else Outcome.threw "editReply",
         [Step.deferReply true true, Step.cacheGet TRADE_CHANNEL_ID (some ch),
          Step.send ch (tradeEmbed i) false,
          Step.consoleError "Failed to send message to trade channel:" "send",
          Step.editReply FAILURE_REPLY (w.editReplyOk 0)])
      else if w.editReplyOk 0 = true then
        (Outcome.returned (),
         [Step.deferReply true true, Step.cacheGet TRADE_CHANNEL_ID (some ch),
          Step.send ch (tradeEmbed i) true, Step.editReply SUCCESS_REPLY true])
      else
        (if w.editReplyOk 1 then Outcome.returned () else Outcome.threw "editReply",
         [Step.deferReply true true, Step.cacheGet TRADE_CHANNEL_ID (some ch),
          Step.send ch (tradeEmbed i) true, Step.editReply SUCCESS_REPLY false,
          Step.consoleError "Failed to send message to trade channel:" "editReply",
          Step.editReply FAILURE_REPLY (w.editReplyOk 1)]) := by
  obtain ⟨hc, hn, hd, hch⟩ := (resolved_iff w i ch).mp h
  simp [runTable, hc, hn, hd, hch]

set_option maxRecDepth 200000 in
/-- Counterexample to C1 as stated: the channel resolves and the link matches
the pattern, yet `send` is never called, because the builder rejects the
1025-character item before the dispatch. -/
theorem C1_counterexample :
    Step.cacheGet TRADE_CHANNEL_ID (some { id := TRADE_CHANNEL_ID }) ∈
      trace checkingWorld longItemTrade ∧
    (SERVER_LINK_PATTERN.test longItemTrade.private_server_link).1 = true ∧
    (sends (trace checkingWorld longItemTrade)).length = 0 := by
  decide

/-- Claim C1, amended: in a `trade` invocation whose destination channel
resolves, `send` is called exactly once if the link matches the pattern and
the notification construction does not throw, and not at all otherwise. -/
theorem C1_send_once_iff_valid (w : World) (i : Interaction) (ch : Channel)
    (h : Step.cacheGet TRADE_CHANNEL_ID (some ch) ∈ trace w i) :
    (sends (trace w i)).length =
      if (SERVER_LINK_PATTERN.test i.private_server_link).1 = true ∧
          w.embedValid (tradeEmbed i) = true then 1 else 0 := by
  rw [trace_eq, runTable_resolved w i ch h]
  split_ifs <;> simp_all [sends]

/-- Witness for C1: scenario A in a world where every call succeeds. -/
theorem C1_send_once_iff_valid_witness :
    Step.cacheGet TRADE_CHANNEL_ID (some { id := TRADE_CHANNEL_ID }) ∈
      trace fineWorld scenarioA ∧
    (sends (trace fineWorld scenarioA)).length =
      if (SERVER_LINK_PATTERN.test scenarioA.private_server_link).1 = true ∧
          fineWorld.embedValid (tradeEmbed scenarioA) = true then 1 else 0 :=
  ⟨by decide, C1_send_once_iff_valid fineWorld scenarioA { id := TRADE_CHANNEL_ID } (by decide)⟩

/-- Counterexample to C2 as stated: three `trade` invocations in which the
number of `editReply` calls is not one. When `deferReply` is rejected, and when
the builder throws, there is none; when `send` succeeds and the success reply
is rejected, there are two. -/
theorem C2_counterexample :
    scenarioA.isCommand = true ∧ scenarioA.commandName = "trade" ∧
    (editReplies (trace expiredWorld scenarioA)).length = 0 ∧
    (editReplies (trace throwingBuilderWorld scenarioA)).length = 0 ∧
    editReplies (trace flakyReplyWorld scenarioA) = [SUCCESS_REPLY, FAILURE_REPLY] := by
  decide

/-- Claim C2, amended: in a `trade` invocation in which `deferReply` resolves,
the notification construction does not throw and the reply call resolves, the
handler makes exactly one `editReply` call and that reply is delivered,
whatever the results of channel resolution, link validation and dispatch. -/
theorem C2_one_reply (w : World) (i : Interaction)
    (hc : i.isCommand = true) (hn : i.commandName = "trade")
    (hd : w.deferReplyOk = true) (hv : w.embedValid (tradeEmbed i) = true)
    (hr : w.editReplyOk 0 = true) :
    (editReplies (trace w i)).length = 1 ∧ delivered (trace w i) = editReplies (trace w i) := by
  rw [trace_eq]
  cases hch : w.channels TRADE_CHANNEL_ID with
  | none => simp [runTable, hc, hn, hd, hch, hr, editReplies, delivered]
  | some ch =>
    simp only [runTable, hc, hn, hd, hch, hv, hr, Bool.true_eq_false, ne_eq, not_true_eq_false,
      or_self, if_false, if_true]
    split_ifs <;> simp [editReplies, delivered]

/-- Witness for C2: scenario A with a failing `send`. -/
theorem C2_one_reply_witness :
    (editReplies (trace sendFailsWorld scenarioA)).length = 1 ∧
    delivered (trace sendFailsWorld scenarioA) = editReplies (trace sendFailsWorld scenarioA) :=
  C2_one_reply sendFailsWorld scenarioA (by decide) (by decide) (by decide) (by decide)
    (by decide)

/-- Claim C3: when the cache lookup of the destination channel returns
nothing, whatever the link is, the handler never calls `send`, and its reply is
the configuration-error message, which is not the validation-error message. -/
theorem C3_unresolved_channel (w : World) (i : Interaction)
    (h : Step.cacheGet TRADE_CHANNEL_ID none ∈ trace w i) :
    sends (trace w i) = [] ∧
    (∀ ch e ok, Step.send ch e ok ∉ trace w i) ∧
    editReplies (trace w i) = [CHANNEL_NOT_FOUND_REPLY] ∧
    CHANNEL_NOT_FOUND_REPLY =
      "Error: The trade channel could not be found. Please check the channel ID." ∧
    CHANNEL_NOT_FOUND_REPLY ≠ INVALID_LINK_REPLY := by
  obtain ⟨hc, hn, hd, hch⟩ := (unresolved_iff w i).mp h
  rw [trace_eq]
  refine ⟨?_, ?_, ?_, rfl, by decide⟩ <;>
    simp [runTable, hc, hn, hd, hch, sends, editReplies]

/-- Witness for C3: scenario D with the valid link of scenario A. -/
theorem C3_unresolved_channel_witness :
    (SERVER_LINK_PATTERN.test scenarioA.private_server_link).1 = true ∧
    sends (trace noChannelWorld scenarioA) = [] ∧
    (∀ ch e ok, Step.send ch e ok ∉ trace noChannelWorld scenarioA) ∧
    editReplies (trace noChannelWorld scenarioA) = [CHANNEL_NOT_FOUND_REPLY] ∧
    CHANNEL_NOT_FOUND_REPLY =
      "Error: The trade channel could not be found. Please check the channel ID." ∧
    CHANNEL_NOT_FOUND_REPLY ≠ INVALID_LINK_REPLY :=
  ⟨by decide, C3_unresolved_channel noChannelWorld scenarioA (by decide)⟩

set_option maxRecDepth 200000 in
/-- The validation-error message spells out the expected format. -/
theorem INVALID_LINK_REPLY_format :
    "https://www.roblox.com/share?code=________________________&type=Server".data <:+:
      INVALID_LINK_REPLY.data := by
  decide

/-- The reply by outcome, for a `trade` invocation whose destination channel
resolves: the validation-error message if the link does not match; the failure
message if the link matches and `send` failed; the success message if the link
matches, `send` succeeded and the success reply was not rejected. -/
theorem reply_by_outcome (w : World) (i : Interaction) (ch : Channel)
    (h : Step.cacheGet TRADE_CHANNEL_ID (some ch) ∈ trace w i) :
    ((SERVER_LINK_PATTERN.test i.private_server_link).1 = false →
      editReplies (trace w i) = [INVALID_LINK_REPLY]) ∧
    ((SERVER_LINK_PATTERN.test i.private_server_link).1 = true →
      (∃ e, Step.send ch e true ∈ trace w i) → w.editReplyOk 0 = true →
      editReplies (trace w i) = [SUCCESS_REPLY]) ∧
    ((SERVER_LINK_PATTERN.test i.private_server_link).1 = true →
      (∃ e, Step.send ch e false ∈ trace w i) →
      editReplies (trace w i) = [FAILURE_REPLY]) := by
  rw [trace_eq, runTable_resolved w i ch h]
  refine ⟨?_, ?_, ?_⟩
  · intro ht
    simp [ht, editReplies]
  · intro ht
    simp only [ht, Bool.true_eq_false, if_false]
    split_ifs <;> simp_all [editReplies]
  · intro ht
    simp only [ht, Bool.true_eq_false, if_false]
    split_ifs <;> simp [editReplies]

/-- Claim C5 at a failing input: the channel resolves, the link matches and
`send` succeeds, but the success reply, which sits in the same `try` block, is
rejected. The `catch` block then logs a failed send and the terminal reply is
the failure message, not the success message. -/
theorem C5_failing_input :
    Step.cacheGet TRADE_CHANNEL_ID (some { id := TRADE_CHANNEL_ID }) ∈
      trace flakyReplyWorld scenarioA ∧
    (SERVER_LINK_PATTERN.test scenarioA.private_server_link).1 = true ∧
    Step.send { id := TRADE_CHANNEL_ID } (tradeEmbed scenarioA) true ∈
      trace flakyReplyWorld scenarioA ∧
    Step.consoleError "Failed to send message to trade channel:" "editReply" ∈
      trace flakyReplyWorld scenarioA ∧
    editReplies (trace flakyReplyWorld scenarioA) = [SUCCESS_REPLY, FAILURE_REPLY] ∧
    terminalReply (trace flakyReplyWorld scenarioA) = some FAILURE_REPLY ∧
    delivered (trace flakyReplyWorld scenarioA) = [FAILURE_REPLY] ∧
    terminalReply (trace flakyReplyWorld scenarioA) ≠ some SUCCESS_REPLY := by
  decide

set_option maxRecDepth 200000 in
/-- Counterexample to C6 as stated: the reply to scenario C is the fixed
validation-error message; none of the three submitted strings occurs in it, and
scenario B, with another link, gets the same reply. -/
theorem C6_counterexample :
    (SERVER_LINK_PATTERN.test scenarioC.private_server_link).1 = false ∧
    editReplies (trace fineWorld scenarioC) = [INVALID_LINK_REPLY] ∧
    ¬ (scenarioC.item_to_trade.data <:+: INVALID_LINK_REPLY.data) ∧
    ¬ (scenarioC.item_looking_for.data <:+: INVALID_LINK_REPLY.data) ∧
    ¬ (scenarioC.private_server_link.data <:+: INVALID_LINK_REPLY.data) ∧
    scenarioB.private_server_link ≠ scenarioC.private_server_link ∧
    editReplies (trace fineWorld scenarioB) = editReplies (trace fineWorld scenarioC) := by
  decide

/-- Claim C6, amended: when the link fails the pattern match, the reply is one
fixed message, the same for every invocation; it describes the expected link
shape and does not depend on the submitted fields. -/
theorem C6_fixed_validation_reply (w : World) (i : Interaction) (ch : Channel)
    (h : Step.cacheGet TRADE_CHANNEL_ID (some ch) ∈ trace w i)
    (ht : (SERVER_LINK_PATTERN.test i.private_server_link).1 = false) :
    editReplies (trace w i) =
      ["Error: Invalid private server link format. It must be in the format `https://www.roblox.com/share?code=________________________&type=Server`."] ∧
    "https://www.roblox.com/share?code=________________________&type=Server".data <:+:
      INVALID_LINK_REPLY.data := by
  rw [trace_eq, runTable_resolved w i ch h]
  refine ⟨?_, INVALID_LINK_REPLY_format⟩
  simp [ht, editReplies, INVALID_LINK_REPLY]

/-- Witness for C6: scenario B. -/
theorem C6_fixed_validation_reply_witness :
    editReplies (trace fineWorld scenarioB) =
      ["Error: Invalid private server link format. It must be in the format `https://www.roblox.com/share?code=________________________&type=Server`."] ∧
    "https://www.roblox.com/share?code=________________________&type=Server".data <:+:
      INVALID_LINK_REPLY.data :=
  C6_fixed_validation_reply fineWorld scenarioB { id := TRADE_CHANNEL_ID } (by decide) (by decide)

/-- Claim C7: every embed the handler passes to `send` has the four fields
Trader, Item to Trade, Item Looking For and Private Server Link, in this order,
with the user reference, the two item strings and the link wrapped in
`[Click to Join](...)` as values; the two item fields, and only they, are
inline; colour, title, description, thumbnail (the avatar reference) and footer
are set; and the builder accepted it. -/
theorem C7_embed_complete (w : World) (i : Interaction) (ch : Channel) (e : Embed) (ok : Bool)
    (h : Step.send ch e ok ∈ trace w i) :
    e.fields =
      [{ name := "Trader", value := i.user, inline := false },
       { name := "Item to Trade", value := i.item_to_trade, inline := true },
       { name := "Item Looking For", value := i.item_looking_for, inline := true },
       { name := "Private Server Link",
         value := "[Click to Join](" ++ i.private_server_link ++ ")", inline := false }] ∧
    e.fields.length = 4 ∧
    (e.fields.filter (fun f => f.inline)).map (fun f => f.name) =
      ["Item to Trade", "Item Looking For"] ∧
    e.color = some "#FFD700" ∧
    e.title = some "✨ New Trade Request ✨" ∧
    e.description = some "A user has submitted a trade request." ∧
    e.thumbnail = some i.avatarURL ∧
    e.footer = some "Trade Bot | Use the /trade command to create your own request!" ∧
    w.embedValid e = true := by
  have he : e = tradeEmbed i ∧ w.embedValid (tradeEmbed i) = true := by
    rw [trace_eq] at h
    cases hc : i.isCommand
    · simp [runTable, hc] at h
    · by_cases hn : i.commandName = "trade"
      · cases hd : w.deferReplyOk
        · simp [runTable, hc, hn, hd] at h
        · cases hch : w.channels TRADE_CHANNEL_ID with
          | none => simp [runTable, hc, hn, hd, hch] at h
          | some c =>
            simp only [runTable, hc, hn, hd, hch, Bool.true_eq_false, ne_eq, not_true_eq_false,
              or_self, if_false] at h
            split_ifs at h <;> simp_all
      · simp [runTable, hc, hn] at h
  obtain ⟨rfl, hv⟩ := he
  refine ⟨rfl, rfl, rfl, rfl, rfl, rfl, rfl, rfl, hv⟩

/-- Witness for C7: the embed sent in scenario A. -/
theorem C7_embed_complete_witness :
    Step.send { id := TRADE_CHANNEL_ID } (tradeEmbed scenarioA) true ∈
      trace fineWorld scenarioA ∧
    (tradeEmbed scenarioA).fields =
      [{ name := "Trader", value := "<@42>", inline := false },
       { name := "Item to Trade", value := "Sword", inline := true },
       { name := "Item Looking For", value := "Shield", inline := true },
       { name := "Private Server Link",
         value := "[Click to Join](" ++
           "https://www.roblox.com/share?code=ABC123XYZ&type=Server" ++ ")",
         inline := false }] :=
  ⟨by decide,
    (C7_embed_complete fineWorld scenarioA { id := TRADE_CHANNEL_ID } (tradeEmbed scenarioA) true
      (by decide)).1⟩

/-- Counterexample to C9 as stated: when `send` fails and the `editReply` of
the `catch` block is rejected too, the error leaves the handler and no reply is
delivered; when `deferReply` is rejected, the error leaves the handler before
any reply is tried. -/
theorem C9_counterexample :
    outcome offlineWorld scenarioA = Outcome.threw "editReply" ∧
    delivered (trace offlineWorld scenarioA) = [] ∧
    outcome expiredWorld scenarioA = Outcome.threw "deferReply" ∧
    editReplies (trace expiredWorld scenarioA) = [] := by
  decide

/-- Claim C9, amended: an error raised by `send` is caught inside the handler,
logged, and answered with the failure reply; and when `deferReply`, the
notification construction and the `editReply` calls succeed, no error leaves
the handler and a `trade` invocation gets exactly one reply delivered. -/
theorem C9_send_error_caught (w : World) (i : Interaction)
    (hd : w.deferReplyOk = true) (hv : w.embedValid (tradeEmbed i) = true)
    (hr : ∀ n, w.editReplyOk n = true) :
    outcome w i = Outcome.returned () ∧
    (i.isCommand = true → i.commandName = "trade" → (delivered (trace w i)).length = 1) ∧
    (∀ ch e, Step.send ch e false ∈ trace w i →
      Step.consoleError "Failed to send message to trade channel:" "send" ∈ trace w i ∧
      delivered (trace w i) = [FAILURE_REPLY]) := by
  rw [outcome_eq, trace_eq]
  cases hc : i.isCommand
  · simp [runTable, hc]
  · by_cases hn : i.commandName = "trade"
    · cases hch : w.channels TRADE_CHANNEL_ID with
      | none => simp [runTable, hc, hn, hd, hch, hr, delivered]
      | some c =>
        simp only [runTable, hc, hn, hd, hch, hv, hr, Bool.true_eq_false, ne_eq,
          not_true_eq_false, or_self, if_false, if_true]
        split_ifs <;> simp [delivered]
    · simp [runTable, hc, hn]

/-- Witness for C9: scenario A with a failing `send`. -/
theorem C9_send_error_caught_witness :
    Step.send { id := TRADE_CHANNEL_ID } (tradeEmbed scenarioA) false ∈
      trace sendFailsWorld scenarioA ∧
    outcome sendFailsWorld scenarioA = Outcome.returned () ∧
    (scenarioA.isCommand = true → scenarioA.commandName = "trade" →
      (delivered (trace sendFailsWorld scenarioA)).length = 1) ∧
    (∀ ch e, Step.send ch e false ∈ trace sendFailsWorld scenarioA →
      Step.consoleError "Failed to send message to trade channel:" "send" ∈
        trace sendFailsWorld scenarioA ∧
      delivered (trace sendFailsWorld scenarioA) = [FAILURE_REPLY]) :=
  ⟨by decide,
    C9_send_error_caught sendFailsWorld scenarioA (by decide) (by decide) (fun _ => rfl)⟩

set_option maxRecDepth 200000 in
/-- Counterexample to C8 as stated: the link of scenario A passes validation
and is forwarded; followed by 1000 characters of text it still passes
validation, but it is not forwarded, since the builder rejects the link field,
which is then longer than 1024 characters. -/
theorem C8_counterexample :
    (SERVER_LINK_PATTERN.test scenarioA.private_server_link).1 = true ∧
    sends (trace checkingWorld scenarioA) = [tradeEmbed scenarioA] ∧
    paddedLinkTrade.private_server_link =
      "" ++ scenarioA.private_server_link ++ String.mk (List.replicate 1000 'x') ∧
    (SERVER_LINK_PATTERN.test paddedLinkTrade.private_server_link).1 = true ∧
    Step.cacheGet TRADE_CHANNEL_ID (some { id := TRADE_CHANNEL_ID }) ∈
      trace checkingWorld paddedLinkTrade ∧
    sends (trace checkingWorld paddedLinkTrade) = [] ∧
    outcome checkingWorld paddedLinkTrade = Outcome.threw "EmbedBuilder" := by
  decide

/-- Claim C8, amended: validation is an unanchored substring match: a string
that passes still passes with any text put before and after it; and an
invocation with the longer string as its link, whose destination channel
resolves and whose notification construction does not throw, is forwarded,
with the whole string as the link. -/
theorem C8_unanchored_forwarded (p s q : String)
    (h : (SERVER_LINK_PATTERN.test s).1 = true) :
    (SERVER_LINK_PATTERN.test (p ++ s ++ q)).1 = true ∧
    ∀ (w : World) (i : Interaction) (ch : Channel),
      Step.cacheGet TRADE_CHANNEL_ID (some ch) ∈ trace w i →
      i.private_server_link = p ++ s ++ q →
      w.embedValid (tradeEmbed i) = true →
      sends (trace w i) = [tradeEmbed i] ∧
      Step.send ch (tradeEmbed i) w.sendOk ∈ trace w i ∧
      (tradeEmbed i).fields.map (fun f => f.value) =
        [i.user, i.item_to_trade, i.item_looking_for,
         "[Click to Join](" ++ (p ++ s ++ q) ++ ")"] := by
  refine ⟨test_append p s q h, ?_⟩
  intro w i ch hres hlink hv
  have ht : (SERVER_LINK_PATTERN.test i.private_server_link).1 = true := by
    rw [hlink]
    exact test_append p s q h
  rw [trace_eq, runTable_resolved w i ch hres]
  refine ⟨?_, ?_, ?_⟩
  · simp only [ht, hv, Bool.true_eq_false, if_false]
    split_ifs <;> simp [sends]
  · simp only [ht, hv, Bool.true_eq_false, if_false]
    split_ifs <;> simp_all
  · simp [tradeEmbed, EmbedBuilder, Embed.setColor, Embed.setTitle, Embed.setDescription,
      Embed.addFields, Embed.setThumbnail, Embed.setFooter, hlink]

/-- Witness for C8: a valid link inside a longer text is forwarded whole. -/
theorem C8_unanchored_forwarded_witness :
    (SERVER_LINK_PATTERN.test "https://www.roblox.com/share?code=A&type=Server").1 = true ∧
    (SERVER_LINK_PATTERN.test
      ("join " ++ "https://www.roblox.com/share?code=A&type=Server" ++ "&x=1 now")).1 = true ∧
    sends (trace checkingWorld embeddedLinkTrade) = [tradeEmbed embeddedLinkTrade] :=
  ⟨by decide,
    (C8_unanchored_forwarded "join " "https://www.roblox.com/share?code=A&type=Server"
      "&x=1 now" (by decide)).1,
    ((C8_unanchored_forwarded "join " "https://www.roblox.com/share?code=A&type=Server"
      "&x=1 now" (by decide)).2 checkingWorld embeddedLinkTrade { id := TRADE_CHANNEL_ID }
      (by decide) (by decide) (by decide)).1⟩

end TradeBot
